import Mathlib

/-!
Shallow embedding of the alerting system core (app/models, app/services) and
verification of the spec claims about it.

Conventions of the embedding:
- Timestamps are `Nat` seconds (UTC).  Python `datetime` subtraction compared
  against a positive bound behaves like truncated `Nat` subtraction here: when
  the minuend is smaller the real difference is negative, hence below any
  positive bound, and `Nat` truncation to `0` is below the same bound.
- Nullable columns are `Option`.  The JSON `Text` columns `target_team_ids` /
  `target_user_ids` are modelled as `Option (List Nat)` together with the
  serialization function `json_dumps`, because every write to them goes
  through `json.dumps` of an int list (alert_service.create_alert /
  update_alert).
- The SQLAlchemy session is a record of lists (`DB`); `commit` is implicit in
  returning the updated record.  Audit columns (`created_at` / `updated_at`)
  are omitted: no verified claim mentions them.
- Exceptions raised inside delivery processing (caught by
  `NotificationService._send_notification`) are modelled by an oracle
  `exc : NotificationDelivery → Option String` giving the exception message,
  if any, raised while processing a given record.
-/

namespace AlertingSystem

/-- `SeverityLevel` enum (app/models/alert.py). -/
inductive SeverityLevel where
  | info | warning | critical
deriving DecidableEq, Repr

/-- `DeliveryChannel` enum (app/models/notification_delivery.py); `DeliveryType`
in app/models/alert.py has the same constructors. -/
inductive DeliveryChannel where
  | in_app | email | sms
deriving DecidableEq, Repr

/-- `VisibilityType` enum (app/models/alert.py). -/
inductive VisibilityType where
  | organization | team | user
deriving DecidableEq, Repr

/-- `AlertStatus` enum (app/models/alert.py). -/
inductive AlertStatus where
  | active | expired | archived
deriving DecidableEq, Repr

/-- `DeliveryStatus` enum (app/models/notification_delivery.py). -/
inductive DeliveryStatus where
  | pending | sent | delivered | failed | read
deriving DecidableEq, Repr

/-- `Team` row (app/models/team.py): only `id` and `name` matter to the core. -/
structure Team where
  id : Nat
  name : String
deriving DecidableEq, Repr

/-- `User` row (app/models/user.py). -/
structure User where
  id : Nat
  name : String
  email : String
  is_admin : Bool
  team_id : Option Nat
  is_active : Bool
deriving DecidableEq, Repr

/-- `Alert` row (app/models/alert.py).  `target_team_ids` / `target_user_ids`
are JSON-text columns holding an int list (or NULL); see module header. -/
structure Alert where
  id : Nat
  title : String
  message : String
  severity : SeverityLevel
  delivery_type : DeliveryChannel
  visibility_type : VisibilityType
  status : AlertStatus
  start_time : Nat
  expiry_time : Option Nat
  reminder_interval_hours : Nat
  reminders_enabled : Bool
  target_team_ids : Option (List Nat)
  target_user_ids : Option (List Nat)
  created_by : Nat
deriving DecidableEq, Repr

/-- `UserAlertPreference` row (app/models/user_alert_preference.py).
Unique per (user_id, alert_id) by table constraint. -/
structure UserAlertPreference where
  user_id : Nat
  alert_id : Nat
  is_read : Bool
  read_at : Option Nat
  is_snoozed : Bool
  snoozed_at : Option Nat
  snoozed_until : Option Nat
  snooze_count : Nat
  last_reminded_at : Option Nat
  reminder_count : Nat
deriving DecidableEq, Repr

/-- Column defaults of a freshly inserted `UserAlertPreference`
(app/models/user_alert_preference.py). -/
def UserAlertPreference.fresh (user_id alert_id : Nat) : UserAlertPreference where
  user_id := user_id
  alert_id := alert_id
  is_read := false
  read_at := none
  is_snoozed := false
  snoozed_at := none
  snoozed_until := none
  snooze_count := 0
  last_reminded_at := none
  reminder_count := 0

/-- `NotificationDelivery` row (app/models/notification_delivery.py). -/
structure NotificationDelivery where
  id : Nat
  alert_id : Nat
  user_id : Nat
  channel : DeliveryChannel
  status : DeliveryStatus
  delivery_address : Option String
  scheduled_at : Option Nat
  sent_at : Option Nat
  delivered_at : Option Nat
  read_at : Option Nat
  retry_count : Nat
  max_retries : Nat
  next_retry_at : Option Nat
  error_message : Option String
  is_reminder : Bool
  reminder_sequence : Option Nat
deriving DecidableEq, Repr

/-- The database session state for the tables the core touches. -/
structure DB where
  teams : List Team
  users : List User
  alerts : List Alert
  prefs : List UserAlertPreference
  deliveries : List NotificationDelivery
  next_delivery_id : Nat
deriving DecidableEq, Repr

/-! ## Preference state machine (app/models/user_alert_preference.py) -/

/-- `UserAlertPreference.should_receive_reminder` (a Python property with a
side effect: an expired snooze is reset in place).  Returns the decision
together with the possibly un-snoozed row, mirroring the source order:
snooze check first, then `is_read`, then the last-reminder interval check. -/
def should_receive_reminder_run (alert : Alert) (pref : UserAlertPreference)
    (now : Nat) : Bool × UserAlertPreference :=
  let step :=
    if pref.is_snoozed then
      match pref.snoozed_until with
      | some su =>
          if now < su then none
          else some { pref with is_snoozed := false, snoozed_until := none }
      | none => some { pref with is_snoozed := false, snoozed_until := none }
    else some pref
  match step with
  | none => (false, pref)
  | some p =>
      if p.is_read then (false, p)
      else
        match p.last_reminded_at with
        | some lr =>
            if now - lr < alert.reminder_interval_hours * 3600 then (false, p)
            else (true, p)
        | none => (true, p)

/-- The boolean decision of `should_receive_reminder`. -/
def should_receive_reminder (alert : Alert) (pref : UserAlertPreference)
    (now : Nat) : Bool :=
  (should_receive_reminder_run alert pref now).1

/-- The reminder predicate exactly as the spec words it (§4.2): false if
isRead; else false if isSnoozed and now < snoozedUntil; else false if
lastRemindedAt is set and now - lastRemindedAt is under the alert interval;
else true. -/
def shouldReceiveReminderSpec (alert : Alert) (pref : UserAlertPreference)
    (now : Nat) : Bool :=
  if pref.is_read then false
  else if pref.is_snoozed &&
      (match pref.snoozed_until with
       | some su => decide (now < su)
       | none => false) then false
  else
    match pref.last_reminded_at with
    | some lr => !decide (now - lr < alert.reminder_interval_hours * 3600)
    | none => true

/-- `UserAlertPreference.mark_as_read`: sets `is_read` and stamps `read_at`
with the current time, unconditionally. -/
def UserAlertPreference.mark_as_read (pref : UserAlertPreference) (now : Nat) :
    UserAlertPreference :=
  { pref with is_read := true, read_at := some now }

/-- 23:59:59 UTC of the day containing `now` (seconds model of
`datetime.combine(now.date(), time(23, 59, 59))`). -/
def end_of_day_utc (now : Nat) : Nat :=
  now / 86400 * 86400 + 86399

/-- `UserAlertPreference.snooze_for_day`. -/
def UserAlertPreference.snooze_for_day (pref : UserAlertPreference) (now : Nat) :
    UserAlertPreference :=
  { pref with
      is_snoozed := true
      snoozed_at := some now
      snoozed_until := some (end_of_day_utc now)
      snooze_count := pref.snooze_count + 1 }

/-! ## Target resolution and the alert list view (app/services/alert_service.py) -/

/-- `json.dumps` of an int list, as written to the `target_team_ids` /
`target_user_ids` text columns. -/
def json_dumps (l : List Nat) : String :=
  "[" ++ String.intercalate ", " (l.map toString) ++ "]"

/-- Substring test on char lists: `pat` occurs contiguously in `hay`. -/
def char_list_contains (hay pat : List Char) : Bool :=
  (List.range (hay.length + 1)).any fun i => pat.isPrefixOf (hay.drop i)

/-- SQL `column LIKE '%pat%'`: the pattern occurs as a substring. -/
def sql_like_contains (hay pat : String) : Bool :=
  char_list_contains hay.toList pat.toList

/-- `AlertService._get_target_users_for_alert`: the target resolver.  Team and
user scopes use `in_` on the decoded id list — exact membership. -/
def get_target_users_for_alert (db : DB) (alert : Alert) : List User :=
  match alert.visibility_type with
  | .organization => db.users.filter (·.is_active)
  | .team =>
      let team_ids := alert.target_team_ids.getD []
      db.users.filter fun u =>
        u.is_active &&
          (match u.team_id with
           | some t => team_ids.contains t
           | none => false)
  | .user =>
      let user_ids := alert.target_user_ids.getD []
      db.users.filter fun u => u.is_active && user_ids.contains u.id

/-- The visibility filter of `AlertService.get_alerts_for_user`: an alert row
passes for a given user when it is ACTIVE and is organization-wide, or is
team-scoped and `target_team_ids LIKE '%{user.team_id}%'` (substring match on
the JSON text; NULL column never matches), or is user-scoped and
`target_user_ids LIKE '%{user_id}%'`. -/
def alert_visible_in_list (alert : Alert) (user : User) : Bool :=
  decide (alert.status = AlertStatus.active) &&
    (decide (alert.visibility_type = VisibilityType.organization)
      || (match user.team_id with
          | some t =>
              decide (alert.visibility_type = VisibilityType.team) &&
                (match alert.target_team_ids with
                 | some ids => sql_like_contains (json_dumps ids) (toString t)
                 | none => false)
          | none => false)
      || (decide (alert.visibility_type = VisibilityType.user) &&
            (match alert.target_user_ids with
             | some ids => sql_like_contains (json_dumps ids) (toString user.id)
             | none => false)))

/-- `AlertService.get_alerts_for_user` restricted to which alerts appear
(include_read = true, no pagination): empty for an unknown user, else the
alerts passing the visibility filter. -/
def get_alerts_for_user (db : DB) (user_id : Nat) : List Alert :=
  match db.users.find? (fun u => u.id == user_id) with
  | none => []
  | some user => db.alerts.filter (alert_visible_in_list · user)

/-! ## Preference seeding and per-user actions (app/services/alert_service.py) -/

/-- Does a stored preference row match the (alert, user) pair? -/
def pref_matches (alert_id user_id : Nat) (p : UserAlertPreference) : Bool :=
  p.alert_id == alert_id && p.user_id == user_id

/-- `AlertService._create_user_preferences_for_alert`: seeds a fresh default
row for every resolved target user that has none yet (the existence check
sees rows added earlier in the same loop via session autoflush). -/
def create_user_preferences_for_alert (db : DB) (alert : Alert) : DB :=
  let target_users := get_target_users_for_alert db alert
  { db with
      prefs := target_users.foldl (fun acc u =>
        if acc.any (pref_matches alert.id u.id) then acc
        else acc ++ [UserAlertPreference.fresh u.id alert.id]) db.prefs }

/-- `AlertService._update_user_preferences_for_alert`: deletes every
preference row of the alert, then re-seeds from the current targets. -/
def update_user_preferences_for_alert (db : DB) (alert : Alert) : DB :=
  let db1 := { db with prefs := db.prefs.filter fun p => p.alert_id != alert.id }
  create_user_preferences_for_alert db1 alert

/-- `AlertService._get_or_create_user_preference`: returns the existing row,
or inserts a fresh one when both the alert and the user exist, else nothing. -/
def get_or_create_user_preference (db : DB) (alert_id user_id : Nat) :
    Option UserAlertPreference × DB :=
  match db.prefs.find? (pref_matches alert_id user_id) with
  | some p => (some p, db)
  | none =>
      if db.alerts.any (fun a => a.id == alert_id)
          && db.users.any (fun u => u.id == user_id) then
        let p := UserAlertPreference.fresh user_id alert_id
        (some p, { db with prefs := db.prefs ++ [p] })
      else (none, db)

/-- `AlertService.mark_alert_as_read`: get-or-create the row, then
`mark_as_read` on it and commit. -/
def mark_alert_as_read (db : DB) (now alert_id user_id : Nat) : Bool × DB :=
  match get_or_create_user_preference db alert_id user_id with
  | (some _, db1) =>
      (true, { db1 with prefs := db1.prefs.map fun p =>
          if pref_matches alert_id user_id p then p.mark_as_read now else p })
  | (none, db1) => (false, db1)

/-- `AlertService.snooze_alert_for_user`: get-or-create the row, then
`snooze_for_day` on it and commit. -/
def snooze_alert_for_user (db : DB) (now alert_id user_id : Nat) : Bool × DB :=
  match get_or_create_user_preference db alert_id user_id with
  | (some _, db1) =>
      (true, { db1 with prefs := db1.prefs.map fun p =>
          if pref_matches alert_id user_id p then p.snooze_for_day now else p })
  | (none, db1) => (false, db1)

/-! ## Alert creation and update (app/services/alert_service.py) -/

/-- `AlertCreate` payload (app/schemas/alert.py). -/
structure AlertCreate where
  title : String
  message : String
  severity : SeverityLevel
  delivery_type : DeliveryChannel
  visibility_type : VisibilityType
  reminder_interval_hours : Nat
  reminders_enabled : Bool
  start_time : Option Nat
  expiry_time : Option Nat
  target_team_ids : Option (List Nat)
  target_user_ids : Option (List Nat)
deriving DecidableEq, Repr

/-- `AlertUpdate` payload (app/schemas/alert.py); `none` models a field not
present in the request (pydantic `exclude_unset` semantics). -/
structure AlertUpdate where
  title : Option String
  message : Option String
  severity : Option SeverityLevel
  delivery_type : Option DeliveryChannel
  visibility_type : Option VisibilityType
  status : Option AlertStatus
  start_time : Option Nat
  expiry_time : Option Nat
  reminder_interval_hours : Option Nat
  reminders_enabled : Option Bool
  target_team_ids : Option (List Nat)
  target_user_ids : Option (List Nat)
deriving DecidableEq, Repr

/-- The update payload with no field set. -/
def AlertUpdate.empty : AlertUpdate where
  title := none
  message := none
  severity := none
  delivery_type := none
  visibility_type := none
  status := none
  start_time := none
  expiry_time := none
  reminder_interval_hours := none
  reminders_enabled := none
  target_team_ids := none
  target_user_ids := none

/-- `AlertService._validate_alert_targeting` on a payload's visibility type
and target lists: a missing or empty required list, or a referenced id with
no row, raises `ValueError` (modelled as `Except.error` with the message);
the organization scope validates nothing. -/
def validate_alert_targeting (db : DB) (visibility_type : VisibilityType)
    (target_team_ids target_user_ids : Option (List Nat)) :
    Except String Unit :=
  match visibility_type with
  | .team =>
      match target_team_ids with
      | none => .error "Team IDs required for team-specific alerts"
      | some [] => .error "Team IDs required for team-specific alerts"
      | some ids =>
          match ids.find? (fun t => !db.teams.any (fun tm => tm.id == t)) with
          | some t => .error ("Team with ID " ++ toString t ++ " does not exist")
          | none => .ok ()
  | .user =>
      match target_user_ids with
      | none => .error "User IDs required for user-specific alerts"
      | some [] => .error "User IDs required for user-specific alerts"
      | some ids =>
          match ids.find? (fun v => !db.users.any (fun u => u.id == v)) with
          | some v => .error ("User with ID " ++ toString v ++ " does not exist")
          | none => .ok ()
  | .organization => .ok ()

/-- Valid targeting as the spec words it (§3/§7): team visibility requires a
non-empty team list whose every id exists; user visibility likewise; the
organization scope requires nothing. -/
def targeting_valid (db : DB) (visibility_type : VisibilityType)
    (target_team_ids target_user_ids : Option (List Nat)) : Bool :=
  match visibility_type with
  | .team =>
      match target_team_ids with
      | none => false
      | some l => !l.isEmpty && l.all fun t => db.teams.any fun tm => tm.id == t
  | .user =>
      match target_user_ids with
      | none => false
      | some l => !l.isEmpty && l.all fun v => db.users.any fun u => u.id == v
  | .organization => true

/-- `AlertService.create_alert`: validate first (so a raised ValidationError
leaves the session untouched), then insert the alert (status defaults to
ACTIVE, start time defaults to now) and seed preferences for its targets. -/
def create_alert (db : DB) (a : AlertCreate) (created_by : Nat)
    (now new_id : Nat) : Except String Alert × DB :=
  match validate_alert_targeting db a.visibility_type a.target_team_ids
      a.target_user_ids with
  | .error e => (.error e, db)
  | .ok _ =>
      let alert : Alert :=
        { id := new_id
          title := a.title
          message := a.message
          severity := a.severity
          delivery_type := a.delivery_type
          visibility_type := a.visibility_type
          status := .active
          start_time := a.start_time.getD now
          expiry_time := a.expiry_time
          reminder_interval_hours := a.reminder_interval_hours
          reminders_enabled := a.reminders_enabled
          target_team_ids := a.target_team_ids
          target_user_ids := a.target_user_ids
          created_by := created_by }
      let db1 := { db with alerts := db.alerts ++ [alert] }
      (.ok alert, create_user_preferences_for_alert db1 alert)

/-- Applying the set fields of an `AlertUpdate` onto an alert row
(the `setattr` loop of `AlertService.update_alert`). -/
def apply_alert_update (alert : Alert) (u : AlertUpdate) : Alert where
  id := alert.id
  title := u.title.getD alert.title
  message := u.message.getD alert.message
  severity := u.severity.getD alert.severity
  delivery_type := u.delivery_type.getD alert.delivery_type
  visibility_type := u.visibility_type.getD alert.visibility_type
  status := u.status.getD alert.status
  start_time := u.start_time.getD alert.start_time
  expiry_time :=
    match u.expiry_time with
    | some t => some t
    | none => alert.expiry_time
  reminder_interval_hours :=
    u.reminder_interval_hours.getD alert.reminder_interval_hours
  reminders_enabled := u.reminders_enabled.getD alert.reminders_enabled
  target_team_ids :=
    match u.target_team_ids with
    | some l => some l
    | none => alert.target_team_ids
  target_user_ids :=
    match u.target_user_ids with
    | some l => some l
    | none => alert.target_user_ids
  created_by := alert.created_by

/-- Did the update payload touch any targeting field?  (The condition under
which `update_alert` re-resolves preferences.) -/
def targeting_touched (u : AlertUpdate) : Bool :=
  u.visibility_type.isSome || u.target_team_ids.isSome
    || u.target_user_ids.isSome

/-- `AlertService.update_alert`: unknown id → soft `none` result; targeting
is validated ONLY when the payload includes `visibility_type` (source line
`if alert_data.visibility_type:`); then the fields are applied and, when a
targeting field was in the payload, preferences are re-resolved. -/
def update_alert (db : DB) (alert_id : Nat) (u : AlertUpdate) :
    Except String (Option Alert) × DB :=
  match db.alerts.find? (fun a => a.id == alert_id) with
  | none => (.ok none, db)
  | some alert =>
      match (match u.visibility_type with
             | some vt =>
                 validate_alert_targeting db vt u.target_team_ids
                   u.target_user_ids
             | none => .ok ()) with
      | .error e => (.error e, db)
      | .ok _ =>
          let alert1 := apply_alert_update alert u
          let db1 := { db with alerts := db.alerts.map fun a =>
              if a.id == alert_id then alert1 else a }
          let db2 :=
            if targeting_touched u then
              update_user_preferences_for_alert db1 alert1
            else db1
          (.ok (some alert1), db2)

/-- Projection used by closed theorems: the message of an error outcome. -/
def except_error_msg {α : Type} : Except String α → Option String
  | .error e => some e
  | .ok _ => none

/-! ## Delivery engine (app/services/notification_service.py) -/

/-- An oracle saying whether processing a given delivery record raises an
exception (and with what message); `none` means no exception.  This models
the `try/except` in `NotificationService._send_notification`. -/
def ExcOracle : Type := NotificationDelivery → Option String

/-- The oracle of a run in which nothing raises. -/
def no_exc : ExcOracle := fun _ => none

/-- The channel strategies (`InAppChannel` / `EmailChannel` / `SMSChannel`):
in-app marks the record Sent and then immediately Delivered and succeeds;
email and SMS set an error message and report failure. -/
def channel_send (now : Nat) (d : NotificationDelivery) :
    Bool × NotificationDelivery :=
  match d.channel with
  | .in_app =>
      (true, { d with status := .delivered, sent_at := some now,
                      delivered_at := some now })
  | .email =>
      (false, { d with error_message := some "Email delivery not implemented yet" })
  | .sms =>
      (false, { d with error_message := some "SMS delivery not implemented yet" })

/-- `NotificationService._send_notification`: any exception is caught and
turns the record Failed; a missing alert or user turns it Failed; otherwise
the channel runs and a channel failure turns it Failed. -/
def send_notification (db : DB) (exc : ExcOracle) (now : Nat)
    (d : NotificationDelivery) : Bool × NotificationDelivery :=
  match exc d with
  | some msg => (false, { d with status := .failed, error_message := some msg })
  | none =>
      if db.alerts.any (fun a => a.id == d.alert_id)
          && db.users.any (fun u => u.id == d.user_id) then
        let r := channel_send now d
        if r.1 then (true, r.2) else (false, { r.2 with status := .failed })
      else (false, { d with status := .failed,
                            error_message := some "Alert or user not found" })

/-- `NotificationService._get_delivery_address`. -/
def get_delivery_address (user : User) (channel : DeliveryChannel) :
    Option String :=
  match channel with
  | .email => some user.email
  | .sms => none
  | .in_app => none

/-- `NotificationService.schedule_notification`: inserts a Pending record.
Note the Python default `reminder_sequence=None` — callers that do not pass a
sequence insert NULL. -/
def schedule_notification (db : DB) (alert : Alert) (user : User)
    (channel : DeliveryChannel) (is_reminder : Bool)
    (reminder_sequence : Option Nat) (now : Nat) :
    NotificationDelivery × DB :=
  let d : NotificationDelivery :=
    { id := db.next_delivery_id
      alert_id := alert.id
      user_id := user.id
      channel := channel
      status := .pending
      delivery_address := get_delivery_address user channel
      scheduled_at := some now
      sent_at := none
      delivered_at := none
      read_at := none
      retry_count := 0
      max_retries := 3
      next_retry_at := none
      error_message := none
      is_reminder := is_reminder
      reminder_sequence := reminder_sequence }
  (d, { db with deliveries := db.deliveries ++ [d],
                next_delivery_id := db.next_delivery_id + 1 })

/-- `NotificationService.send_notification_immediately`: schedule then send.
Its Python signature has no `reminder_sequence` parameter, so the scheduled
record always gets the default `None` sequence. -/
def send_notification_immediately (db : DB) (exc : ExcOracle) (now : Nat)
    (alert : Alert) (user : User) (channel : DeliveryChannel)
    (is_reminder : Bool) : Bool × DB :=
  let s := schedule_notification db alert user channel is_reminder none now
  let r := send_notification s.2 exc now s.1
  (r.1, { s.2 with deliveries := s.2.deliveries.map fun x =>
      if x.id == s.1.id then r.2 else x })

/-- Aggregate counters returned by `send_pending_notifications`. -/
structure SendResults where
  sent : Nat
  failed : Nat
  total : Nat
deriving DecidableEq, Repr

/-- One counting step of `send_pending_notifications`. -/
def send_count_step (db : DB) (exc : ExcOracle) (now : Nat) (r : SendResults)
    (d : NotificationDelivery) : SendResults :=
  if (send_notification db exc now d).1 then { r with sent := r.sent + 1 }
  else { r with failed := r.failed + 1 }

/-- `NotificationService.send_pending_notifications`: processes every Pending
record independently through `_send_notification`, counts successes and
failures, with `total` the number of Pending records selected at the start. -/
def send_pending_notifications (db : DB) (exc : ExcOracle) (now : Nat) :
    SendResults × DB :=
  let pending := db.deliveries.filter fun d => decide (d.status = .pending)
  let counts := pending.foldl (send_count_step db exc now)
    { sent := 0, failed := 0, total := pending.length }
  (counts, { db with deliveries := db.deliveries.map fun d =>
      if (decide (d.status = .pending)) then (send_notification db exc now d).2
      else d })

/-- Aggregate counters returned by `retry_failed_notifications`. -/
structure RetryResults where
  retried : Nat
  succeeded : Nat
  still_failed : Nat
deriving DecidableEq, Repr

/-- The retry selection of `retry_failed_notifications`: Failed, retries not
exhausted, and next retry either unscheduled (NULL) or due. -/
def retry_eligible (now max_retries : Nat) (d : NotificationDelivery) : Bool :=
  decide (d.status = DeliveryStatus.failed)
    && decide (d.retry_count < max_retries)
    && (match d.next_retry_at with
        | none => true
        | some t => decide (t ≤ now))

/-- The per-record mutation done before the re-send: bump `retry_count` and
push `next_retry_at` out by `5 * retry_count` minutes (linear backoff, using
the already-incremented count). -/
def retry_bump (now : Nat) (d : NotificationDelivery) : NotificationDelivery :=
  { d with retry_count := d.retry_count + 1,
           next_retry_at := some (now + 300 * (d.retry_count + 1)) }

/-- One step of the `retry_failed_notifications` loop: an eligible record is
bumped and re-sent, an ineligible one passes through untouched. -/
def retry_step (db : DB) (exc : ExcOracle) (now max_retries : Nat)
    (acc : RetryResults × List NotificationDelivery)
    (d : NotificationDelivery) : RetryResults × List NotificationDelivery :=
  if retry_eligible now max_retries d then
    let r := send_notification db exc now (retry_bump now d)
    ({ retried := acc.1.retried + 1
       succeeded := acc.1.succeeded + (if r.1 then 1 else 0)
       still_failed := acc.1.still_failed + (if r.1 then 0 else 1) },
     acc.2 ++ [r.2])
  else (acc.1, acc.2 ++ [d])

/-- `NotificationService.retry_failed_notifications`: every eligible record is
bumped and re-sent; the rest are untouched. -/
def retry_failed_notifications (db : DB) (exc : ExcOracle) (now : Nat)
    (max_retries : Nat) : RetryResults × DB :=
  let out := db.deliveries.foldl (retry_step db exc now max_retries)
    ({ retried := 0, succeeded := 0, still_failed := 0 }, [])
  (out.1, { db with deliveries := out.2 })

/-- `NotificationService.mark_notification_as_read`: the record must match
both the id and the calling user; then `read_at` is stamped and a Delivered
record moves to Read.  No match: return false, change nothing. -/
def mark_read_rule (now notification_id user_id : Nat)
    (d : NotificationDelivery) : NotificationDelivery :=
  if d.id == notification_id && d.user_id == user_id then
    let d1 := { d with read_at := some now }
    if (decide (d1.status = DeliveryStatus.delivered)) then
      { d1 with status := .read }
    else d1
  else d

/-- `NotificationService.mark_notification_as_read` (body, see doc of
`mark_read_rule` above). -/
def mark_notification_as_read (db : DB) (now : Nat)
    (notification_id user_id : Nat) : Bool × DB :=
  match db.deliveries.find? (fun d => d.id == notification_id
      && d.user_id == user_id) with
  | some _ =>
      (true, { db with deliveries :=
          db.deliveries.map (mark_read_rule now notification_id user_id) })
  | none => (false, db)

/-! ## Reminder pass (app/services/alert_service.py,
app/services/notification_service.py) -/

/-- The alert filter of `get_alerts_requiring_reminders`: ACTIVE, reminders
enabled, started, not yet expired. -/
def alert_needs_reminder_scan (now : Nat) (alert : Alert) : Bool :=
  decide (alert.status = AlertStatus.active)
    && alert.reminders_enabled
    && decide (alert.start_time ≤ now)
    && (match alert.expiry_time with
        | none => true
        | some t => decide (now < t))

/-- The preference filter of `get_alerts_requiring_reminders` (the SQL
variant of the reminder predicate): unread, and un-snoozed or snooze elapsed
(`snoozed_until < now`; a NULL `snoozed_until` never satisfies the SQL
comparison), and never reminded or last reminded before
`now - reminderIntervalHours`. -/
def pref_needs_reminder (alert : Alert) (now : Nat)
    (p : UserAlertPreference) : Bool :=
  p.alert_id == alert.id
    && p.is_read == false
    && (p.is_snoozed == false
        || (match p.snoozed_until with
            | some su => decide (su < now)
            | none => false))
    && (match p.last_reminded_at with
        | none => true
        | some lr => decide (lr < now - alert.reminder_interval_hours * 3600))

/-- `AlertService.get_alerts_requiring_reminders`: for each scanned alert the
due preferences, dropping alerts with none due. -/
def get_alerts_requiring_reminders (db : DB) (now : Nat) :
    List (Alert × List UserAlertPreference) :=
  (db.alerts.filter (alert_needs_reminder_scan now)).filterMap fun alert =>
    let due := db.prefs.filter (pref_needs_reminder alert now)
    if due.isEmpty then none else some (alert, due)

/-- Aggregate counters returned by `process_reminders`. -/
structure ReminderResults where
  reminders_sent : Nat
  users_reminded : Nat
  alerts_processed : Nat
deriving DecidableEq, Repr

/-- `NotificationService.process_reminders`: for each due (alert, preference)
pair, look up the user, compute `reminder_count + 1`, send immediately over
the alert's delivery type with `is_reminder = true` (the computed sequence is
NOT passed to the scheduling call), and only on success stamp
`last_reminded_at = now` and store the incremented count. -/
def process_reminders (db : DB) (exc : ExcOracle) (now : Nat) :
    ReminderResults × DB :=
  let reminder_data := get_alerts_requiring_reminders db now
  reminder_data.foldl
    (fun (acc : ReminderResults × DB) data =>
      data.2.foldl
        (fun (acc2 : ReminderResults × DB) pref =>
          match acc2.2.users.find? (fun u => u.id == pref.user_id) with
          | none => acc2
          | some user =>
              let reminder_count := pref.reminder_count + 1
              let r := send_notification_immediately acc2.2 exc now data.1 user
                data.1.delivery_type true
              if r.1 then
                ({ acc2.1 with
                      reminders_sent := acc2.1.reminders_sent + 1
                      users_reminded := acc2.1.users_reminded + 1 },
                 { r.2 with prefs := r.2.prefs.map fun p =>
                      if pref_matches pref.alert_id pref.user_id p then
                        { p with last_reminded_at := some now,
                                 reminder_count := reminder_count }
                      else p })
              else (acc2.1, r.2))
        acc)
    ({ reminders_sent := 0, users_reminded := 0,
       alerts_processed := reminder_data.length }, db)

/-! ## Concrete fixtures used by closed theorems -/

/-- A team-visibility alert, reminder interval 2h, used by the cadence and
targeting fixtures. -/
def alert_fix (vt : VisibilityType) (tt tu : Option (List Nat)) : Alert where
  id := 1
  title := "a"
  message := "m"
  severity := .info
  delivery_type := .in_app
  visibility_type := vt
  status := .active
  start_time := 0
  expiry_time := none
  reminder_interval_hours := 2
  reminders_enabled := true
  target_team_ids := tt
  target_user_ids := tu
  created_by := 1

/-- An active user whose team id is 1. -/
def user_team1 : User where
  id := 1
  name := "u"
  email := "u@example.com"
  is_admin := false
  team_id := some 1
  is_active := true

/-- An active team-visibility alert targeting exactly team 11. -/
def alert_team11 : Alert := alert_fix .team (some [11]) none

/-- Directory with teams 1 and 11, the single user of team 1, and the alert
targeting team 11 only. -/
def db_team11 : DB where
  teams := [{ id := 1, name := "one" }, { id := 11, name := "eleven" }]
  users := [user_team1]
  alerts := [alert_team11]
  prefs := []
  deliveries := []
  next_delivery_id := 1

/-- A delivery record fixture for alert 1 / user 1 with the given id,
status, channel and retry state. -/
def delivery_fix (id : Nat) (st : DeliveryStatus) (ch : DeliveryChannel)
    (retry_count : Nat) (next_retry_at : Option Nat) : NotificationDelivery where
  id := id
  alert_id := 1
  user_id := 1
  channel := ch
  status := st
  delivery_address := none
  scheduled_at := some 0
  sent_at := none
  delivered_at := none
  read_at := none
  retry_count := retry_count
  max_retries := 3
  next_retry_at := next_retry_at
  error_message := none
  is_reminder := false
  reminder_sequence := none

/-- An organization-wide active alert with reminders enabled (2h interval). -/
def alert_org : Alert := alert_fix .organization none none

/-- One active user, one organization alert, one fresh unread preference:
the minimal state in which the reminder pass is due to send. -/
def db_reminder : DB where
  teams := []
  users := [user_team1]
  alerts := [alert_org]
  prefs := [UserAlertPreference.fresh 1 1]
  deliveries := []
  next_delivery_id := 1

/-- A session with no rows at all. -/
def db_empty : DB where
  teams := []
  users := []
  alerts := []
  prefs := []
  deliveries := []
  next_delivery_id := 1

/-- Alert 1, user 1, one Delivered notification record with id 1. -/
def db_delivered : DB where
  teams := []
  users := [user_team1]
  alerts := [alert_org]
  prefs := []
  deliveries := [delivery_fix 1 .delivered .in_app 0 none]
  next_delivery_id := 2

/-- A team-visibility create payload with no team ids. -/
def bad_create : AlertCreate where
  title := "t"
  message := "m"
  severity := .info
  delivery_type := .in_app
  visibility_type := .team
  reminder_interval_hours := 2
  reminders_enabled := true
  start_time := none
  expiry_time := none
  target_team_ids := none
  target_user_ids := none

/-- An update payload that swaps the target team list to the nonexistent
team 999 without touching `visibility_type`. -/
def upd_bad_team : AlertUpdate :=
  { AlertUpdate.empty with target_team_ids := some [999] }

/-- C1: the claim fails on the code.  For the alert targeting exactly team 11
and the active user of team 1 (1 is not a member of {11}), the target
resolver `_get_target_users_for_alert` correctly excludes the user, but
`get_alerts_for_user` shows the alert to the user anyway, because its SQL
filter `target_team_ids LIKE '%1%'` substring-matches the JSON text "[11]".
So "recipient iff teamId is an exact member" is false for the list view. -/
theorem team_targeting_substring_defect :
    get_target_users_for_alert db_team11 alert_team11 = []
    ∧ get_alerts_for_user db_team11 1 = [alert_team11]
    ∧ user_team1.team_id = some 1
    ∧ alert_team11.target_team_ids = some [11]
    ∧ List.contains [11] 1 = false := by decide

/-- C2: for every preference and alert, `should_receive_reminder` computes the
spec formula — false if isRead; else false if isSnoozed and now < snoozedUntil;
else false if lastRemindedAt is set and now - lastRemindedAt is strictly under
reminderIntervalHours hours; else true — and, at reminderIntervalHours = 2, an
unread unsnoozed preference last reminded 90 minutes ago (now = 20000,
lastRemindedAt = 14600) yields false while 150 minutes ago (11000) yields
true. -/
theorem should_receive_reminder_matches_spec :
    (∀ alert pref now,
        should_receive_reminder alert pref now
          = shouldReceiveReminderSpec alert pref now)
    ∧ should_receive_reminder (alert_fix .organization none none)
        { UserAlertPreference.fresh 1 1 with last_reminded_at := some 14600 }
        20000 = false
    ∧ should_receive_reminder (alert_fix .organization none none)
        { UserAlertPreference.fresh 1 1 with last_reminded_at := some 11000 }
        20000 = true := by
  refine ⟨?_, by decide, by decide⟩
  intro alert pref now
  rcases pref with ⟨uid, aid, ir, ra, isz, sa, su, sc, lra, rc⟩
  simp only [should_receive_reminder, should_receive_reminder_run,
    shouldReceiveReminderSpec]
  cases ir <;> cases isz <;> cases su <;> cases lra <;>
    simp <;> split_ifs <;> simp_all [Nat.not_lt] <;>
    (try (split_ifs <;> simp_all [Nat.not_lt]))

/-- An active team-visibility alert targeting exactly team 1. -/
def alert_team1 : Alert := alert_fix .team (some [1]) none

/-- State in which user 1 (team 1) is targeted by `alert_team1` and has
already read it (`read_at = 50`). -/
def db_read_pref : DB where
  teams := [{ id := 1, name := "one" }]
  users := [user_team1]
  alerts := [alert_team1]
  prefs := [{ UserAlertPreference.fresh 1 1 with is_read := true, read_at := some 50 }]
  deliveries := []
  next_delivery_id := 1

/-- Target resolution only reads the user directory: it is unaffected by the
preference table. -/
lemma get_target_users_ignores_prefs (db : DB) (x : List UserAlertPreference)
    (alert : Alert) :
    get_target_users_for_alert { db with prefs := x } alert
      = get_target_users_for_alert db alert := by
  cases h : alert.visibility_type <;> simp [get_target_users_for_alert, h]

/-- Shape of the preference-seeding fold of
`_create_user_preferences_for_alert`: it only appends fresh default rows for
the given alert, and afterwards every processed user has a row. -/
lemma seed_fold_spec (a_id : Nat) (users : List User) :
    ∀ base : List UserAlertPreference, ∃ extra,
      users.foldl (fun acc u =>
          if acc.any (pref_matches a_id u.id) then acc
          else acc ++ [UserAlertPreference.fresh u.id a_id]) base = base ++ extra
      ∧ (∀ p ∈ extra, p = UserAlertPreference.fresh p.user_id a_id)
      ∧ (∀ u ∈ users, ∃ p ∈ base ++ extra,
            p.user_id = u.id ∧ p.alert_id = a_id) := by
  induction users with
  | nil => exact fun base => ⟨[], by simp⟩
  | cons u us ih =>
      intro base
      by_cases hc : base.any (pref_matches a_id u.id) = true
      · obtain ⟨extra, heq, hfresh, hcover⟩ := ih base
        refine ⟨extra, by rw [List.foldl_cons, if_pos hc]; exact heq, hfresh, ?_⟩
        intro v hv
        rcases List.mem_cons.mp hv with rfl | hv
        · obtain ⟨p, hp, hmatch⟩ := List.any_eq_true.mp hc
          simp only [pref_matches, Bool.and_eq_true, beq_iff_eq] at hmatch
          exact ⟨p, List.mem_append_left _ hp, hmatch.2, hmatch.1⟩
        · exact hcover v hv
      · obtain ⟨extra, heq, hfresh, hcover⟩ :=
          ih (base ++ [UserAlertPreference.fresh u.id a_id])
        refine ⟨UserAlertPreference.fresh u.id a_id :: extra, ?_, ?_, ?_⟩
        · rw [List.foldl_cons, if_neg hc, heq, List.append_assoc]
          rfl
        · intro p hp
          rcases List.mem_cons.mp hp with rfl | hp
          · rfl
          · exact hfresh p hp
        · intro v hv
          rcases List.mem_cons.mp hv with rfl | hv
          · exact ⟨UserAlertPreference.fresh v.id a_id,
              by simp, rfl, rfl⟩
          · obtain ⟨p, hp, hids⟩ := hcover v hv
            refine ⟨p, ?_, hids⟩
            simpa [List.append_assoc] using hp

/-- C5, counterexample: user 1 is targeted both before and after the
re-resolution of `alert_team1`, yet their already-read preference row is not
preserved: re-resolution replaces it with a fresh default row
(`is_read` back to false, `read_at` cleared). -/
theorem retarget_resets_still_targeted_preference :
    get_target_users_for_alert db_read_pref alert_team1 = [user_team1]
    ∧ db_read_pref.prefs.map (fun p => (p.is_read, p.read_at)) = [(true, some 50)]
    ∧ (update_user_preferences_for_alert db_read_pref alert_team1).prefs
        = [UserAlertPreference.fresh 1 1]
    ∧ (update_user_preferences_for_alert db_read_pref alert_team1).prefs.map
        (fun p => (p.is_read, p.read_at)) = [(false, none)] := by decide

/-- C5, amended: re-resolution deletes every preference row of the alert and
re-seeds fresh default rows for exactly the currently-targeted users; rows of
other alerts are untouched, but a still-targeted user's previous row is NOT
preserved — its read/snooze/reminder state is reset to the column defaults. -/
theorem update_preferences_deletes_and_reseeds :
    ∀ (db : DB) (alert : Alert), ∃ extra,
      (update_user_preferences_for_alert db alert).prefs
          = db.prefs.filter (fun p => p.alert_id != alert.id) ++ extra
      ∧ (∀ p ∈ extra, p = UserAlertPreference.fresh p.user_id alert.id)
      ∧ (∀ u ∈ get_target_users_for_alert db alert,
            ∃ p ∈ (update_user_preferences_for_alert db alert).prefs,
              p.user_id = u.id ∧ p.alert_id = alert.id) := by
  intro db alert
  obtain ⟨extra, heq, hfresh, hcover⟩ :=
    seed_fold_spec alert.id
      (get_target_users_for_alert
        { db with prefs := db.prefs.filter fun p => p.alert_id != alert.id } alert)
      (db.prefs.filter fun p => p.alert_id != alert.id)
  refine ⟨extra, ?_, hfresh, ?_⟩
  · simpa [update_user_preferences_for_alert,
      create_user_preferences_for_alert] using heq
  · intro u hu
    have hu' : u ∈ get_target_users_for_alert
        { db with prefs := db.prefs.filter fun p => p.alert_id != alert.id } alert := by
      rwa [get_target_users_ignores_prefs]
    obtain ⟨p, hp, hids⟩ := hcover u hu'
    refine ⟨p, ?_, hids⟩
    have : (update_user_preferences_for_alert db alert).prefs
        = db.prefs.filter (fun p => p.alert_id != alert.id) ++ extra := by
      simpa [update_user_preferences_for_alert,
        create_user_preferences_for_alert] using heq
    rw [this]; exact hp

/-- C5 witness: instantiating the re-seeding theorem on the concrete
already-read state shows the rewritten preference table is the filtered old
table plus fresh rows. -/
theorem update_preferences_deletes_and_reseeds_witness :
    ∃ extra,
      (update_user_preferences_for_alert db_read_pref alert_team1).prefs
        = db_read_pref.prefs.filter
            (fun p => p.alert_id != alert_team1.id) ++ extra
      ∧ ∀ p ∈ extra, p = UserAlertPreference.fresh p.user_id alert_team1.id :=
  ⟨(update_preferences_deletes_and_reseeds db_read_pref alert_team1).choose,
   (update_preferences_deletes_and_reseeds db_read_pref alert_team1).choose_spec.1,
   (update_preferences_deletes_and_reseeds db_read_pref alert_team1).choose_spec.2.1⟩

/-- C4, counterexample: markRead is not idempotent in `read_at`.  Starting
from the directory with alert 1 and user 1 and no preference row, marking
read at time 100 and again at time 200 leaves `read_at = some 200`: the
second call is not a no-op, `read_at` did not stay at 100. -/
theorem mark_read_twice_changes_read_at :
    ((mark_alert_as_read (mark_alert_as_read db_team11 100 1 1).2 200 1 1).2.prefs.map
        (fun p => p.read_at) = [some 200])
    ∧ ¬ ((mark_alert_as_read (mark_alert_as_read db_team11 100 1 1).2 200 1 1).2.prefs.map
        (fun p => p.read_at) = [some 100]) := by decide

/-- C4, amended: each `mark_as_read` call yields `is_read = true` with
`read_at` stamped to the time of that call, and a repeated call collapses to
a single call at the later time — so calling twice is a success that leaves
the state identical to one call at the second timestamp (hence `read_at`
moves to the second call's time rather than staying unchanged). -/
theorem mark_as_read_idempotent_up_to_timestamp :
    (∀ (p : UserAlertPreference) (t : Nat),
        (p.mark_as_read t).is_read = true ∧ (p.mark_as_read t).read_at = some t)
    ∧ (∀ (p : UserAlertPreference) (t₁ t₂ : Nat),
        (p.mark_as_read t₁).mark_as_read t₂ = p.mark_as_read t₂) := by
  exact ⟨fun p t => ⟨rfl, rfl⟩, fun p t₁ t₂ => rfl⟩

/-- `_get_or_create_user_preference` yields a row exactly when the alert id
and the user id exist, assuming referential integrity of the stored
preference rows (their non-null foreign keys reference existing rows). -/
lemma goc_success_iff (db : DB) (alert_id user_id : Nat)
    (hri : ∀ p ∈ db.prefs,
        (∃ a ∈ db.alerts, a.id = p.alert_id) ∧ (∃ u ∈ db.users, u.id = p.user_id)) :
    (get_or_create_user_preference db alert_id user_id).1.isSome = true
      ↔ ((∃ a ∈ db.alerts, a.id = alert_id) ∧ (∃ u ∈ db.users, u.id = user_id)) := by
  unfold get_or_create_user_preference
  cases hf : db.prefs.find? (pref_matches alert_id user_id) with
  | some p =>
      have hmem := List.mem_of_find?_eq_some hf
      have hmatch := List.find?_some hf
      simp only [pref_matches, Bool.and_eq_true, beq_iff_eq] at hmatch
      obtain ⟨⟨a, ha, haid⟩, u, hu, huid⟩ := hri p hmem
      simp only [Option.isSome_some, true_iff]
      exact ⟨⟨a, ha, haid.trans hmatch.1⟩, u, hu, huid.trans hmatch.2⟩
  | none =>
      by_cases hc : (db.alerts.any (fun a => a.id == alert_id)
          && db.users.any (fun u => u.id == user_id)) = true
      · rw [if_pos hc]
        simp only [Option.isSome_some, true_iff]
        simpa [List.any_eq_true] using hc
      · rw [if_neg hc]
        simp only [Bool.false_eq_true, Option.isSome_none, false_iff]
        intro hr
        exact hc (by simpa [List.any_eq_true] using hr)

/-- When `_get_or_create_user_preference` succeeds, the resulting session
holds a preference row for the pair (lazily created if it was missing). -/
lemma goc_creates_row (db : DB) (alert_id user_id : Nat)
    (h : (get_or_create_user_preference db alert_id user_id).1.isSome = true) :
    ∃ p ∈ (get_or_create_user_preference db alert_id user_id).2.prefs,
      p.alert_id = alert_id ∧ p.user_id = user_id := by
  unfold get_or_create_user_preference at *
  cases hf : db.prefs.find? (pref_matches alert_id user_id) with
  | some p =>
      have hmem := List.mem_of_find?_eq_some hf
      have hmatch := List.find?_some hf
      simp only [pref_matches, Bool.and_eq_true, beq_iff_eq] at hmatch
      exact ⟨p, by simpa using hmem, hmatch.1, hmatch.2⟩
  | none =>
      by_cases hc : (db.alerts.any (fun a => a.id == alert_id)
          && db.users.any (fun u => u.id == user_id)) = true
      · refine ⟨UserAlertPreference.fresh user_id alert_id, ?_, rfl, rfl⟩
        simp [hc]
      · rw [hf] at h
        simp [hc] at h

/-- The success bit of `mark_alert_as_read` is exactly get-or-create
succeeding. -/
lemma mark_alert_as_read_fst (db : DB) (now alert_id user_id : Nat) :
    (mark_alert_as_read db now alert_id user_id).1
      = (get_or_create_user_preference db alert_id user_id).1.isSome := by
  unfold mark_alert_as_read
  cases hg : get_or_create_user_preference db alert_id user_id with
  | mk o db1 => cases o <;> simp

/-- The success bit of `snooze_alert_for_user` is exactly get-or-create
succeeding. -/
lemma snooze_alert_for_user_fst (db : DB) (now alert_id user_id : Nat) :
    (snooze_alert_for_user db now alert_id user_id).1
      = (get_or_create_user_preference db alert_id user_id).1.isSome := by
  unfold snooze_alert_for_user
  cases hg : get_or_create_user_preference db alert_id user_id with
  | mk o db1 => cases o <;> simp

/-- On success, `mark_alert_as_read` leaves a row for the pair in place. -/
lemma mark_alert_as_read_row (db : DB) (now alert_id user_id : Nat)
    (h : (mark_alert_as_read db now alert_id user_id).1 = true) :
    ∃ p ∈ (mark_alert_as_read db now alert_id user_id).2.prefs,
      p.alert_id = alert_id ∧ p.user_id = user_id := by
  have hg : (get_or_create_user_preference db alert_id user_id).1.isSome = true := by
    rwa [mark_alert_as_read_fst] at h
  obtain ⟨p, hp, hids⟩ := goc_creates_row db alert_id user_id hg
  unfold mark_alert_as_read
  cases hgc : get_or_create_user_preference db alert_id user_id with
  | mk o db1 =>
      cases o with
      | none => rw [hgc] at hg; simp at hg
      | some q =>
          rw [hgc] at hp
          refine ⟨if pref_matches alert_id user_id p then p.mark_as_read now else p,
            List.mem_map_of_mem _ hp, ?_⟩
          by_cases hm : pref_matches alert_id user_id p = true
          · simpa [hm] using hids
          · simpa [hm] using hids

/-- On success, `snooze_alert_for_user` leaves a row for the pair in place. -/
lemma snooze_alert_for_user_row (db : DB) (now alert_id user_id : Nat)
    (h : (snooze_alert_for_user db now alert_id user_id).1 = true) :
    ∃ p ∈ (snooze_alert_for_user db now alert_id user_id).2.prefs,
      p.alert_id = alert_id ∧ p.user_id = user_id := by
  have hg : (get_or_create_user_preference db alert_id user_id).1.isSome = true := by
    rwa [snooze_alert_for_user_fst] at h
  obtain ⟨p, hp, hids⟩ := goc_creates_row db alert_id user_id hg
  unfold snooze_alert_for_user
  cases hgc : get_or_create_user_preference db alert_id user_id with
  | mk o db1 =>
      cases o with
      | none => rw [hgc] at hg; simp at hg
      | some q =>
          rw [hgc] at hp
          refine ⟨if pref_matches alert_id user_id p then p.snooze_for_day now else p,
            List.mem_map_of_mem _ hp, ?_⟩
          by_cases hm : pref_matches alert_id user_id p = true
          · simpa [hm] using hids
          · simpa [hm] using hids

/-- C10: under referential integrity of the preference table,
`mark_alert_as_read` and `snooze_alert_for_user` return true exactly when the
alert id and the user id exist (no visibility/targeting condition appears
anywhere), and on success a preference row for the pair exists afterwards —
created lazily if it was missing. -/
theorem mark_and_snooze_succeed_iff_ids_exist :
    ∀ (db : DB) (now alert_id user_id : Nat),
      (∀ p ∈ db.prefs,
          (∃ a ∈ db.alerts, a.id = p.alert_id)
            ∧ (∃ u ∈ db.users, u.id = p.user_id)) →
      ((mark_alert_as_read db now alert_id user_id).1 = true
          ↔ (∃ a ∈ db.alerts, a.id = alert_id) ∧ (∃ u ∈ db.users, u.id = user_id))
      ∧ ((snooze_alert_for_user db now alert_id user_id).1 = true
          ↔ (∃ a ∈ db.alerts, a.id = alert_id) ∧ (∃ u ∈ db.users, u.id = user_id))
      ∧ ((mark_alert_as_read db now alert_id user_id).1 = true →
          ∃ p ∈ (mark_alert_as_read db now alert_id user_id).2.prefs,
            p.alert_id = alert_id ∧ p.user_id = user_id)
      ∧ ((snooze_alert_for_user db now alert_id user_id).1 = true →
          ∃ p ∈ (snooze_alert_for_user db now alert_id user_id).2.prefs,
            p.alert_id = alert_id ∧ p.user_id = user_id) := by
  intro db now alert_id user_id hri
  refine ⟨?_, ?_, mark_alert_as_read_row db now alert_id user_id,
    snooze_alert_for_user_row db now alert_id user_id⟩
  · rw [mark_alert_as_read_fst]
    exact goc_success_iff db alert_id user_id hri
  · rw [snooze_alert_for_user_fst]
    exact goc_success_iff db alert_id user_id hri

/-- C10 witness: in the concrete directory with alert 1 and user 1 (and no
preference row), marking read succeeds. -/
theorem mark_and_snooze_succeed_iff_ids_exist_witness :
    (mark_alert_as_read db_team11 7 1 1).1 = true :=
  ((mark_and_snooze_succeed_iff_ids_exist db_team11 7 1 1 (by decide)).1).mpr
    (by decide)

/-- C3: code bug, evaluated at the failing input.  In the minimal due state
(`db_reminder`, now = 7200s) the reminder pass sends exactly one in-app
reminder and correctly updates the preference (`last_reminded_at = now`,
`reminder_count = 1`), but the created delivery carries
`reminder_sequence = none`, not the claimed `reminder_count + 1 = 1`:
`send_notification_immediately` has no sequence parameter, so the sequence
computed in `process_reminders` never reaches the delivery record. -/
theorem reminder_sequence_not_propagated :
    ((process_reminders db_reminder no_exc 7200).2.deliveries.map
        (fun d => (d.is_reminder, d.reminder_sequence, d.status))
      = [(true, none, DeliveryStatus.delivered)])
    ∧ ((process_reminders db_reminder no_exc 7200).2.prefs.map
        (fun p => (p.reminder_count, p.last_reminded_at)) = [(1, some 7200)])
    ∧ (process_reminders db_reminder no_exc 7200).1
        = { reminders_sent := 1, users_reminded := 1, alerts_processed := 1 }
    ∧ ¬ ((process_reminders db_reminder no_exc 7200).2.deliveries.map
        (fun d => d.reminder_sequence) = [some 1]) := by
  refine ⟨by decide, by decide, by decide, by decide⟩

/-- `_send_notification` always leaves a processed record Delivered on
success and Failed on failure (exceptions included). -/
lemma send_notification_status (db : DB) (exc : ExcOracle) (now : Nat)
    (d : NotificationDelivery) :
    ((send_notification db exc now d).1 = true →
        (send_notification db exc now d).2.status = .delivered)
    ∧ ((send_notification db exc now d).1 = false →
        (send_notification db exc now d).2.status = .failed) := by
  unfold send_notification channel_send
  cases hexc : exc d with
  | some msg => simp
  | none =>
      by_cases hc : (db.alerts.any (fun a => a.id == d.alert_id)
          && db.users.any (fun u => u.id == d.user_id)) = true
      · rw [if_pos hc]
        cases hch : d.channel <;> simp [hch]
      · rw [if_neg hc]
        simp

/-- The counting fold of `send_pending_notifications` adds exactly one to
`sent + failed` per processed record and never touches `total`. -/
lemma send_count_step_foldl (db : DB) (exc : ExcOracle) (now : Nat) :
    ∀ (l : List NotificationDelivery) (r : SendResults),
      ((l.foldl (send_count_step db exc now) r).sent
          + (l.foldl (send_count_step db exc now) r).failed
          = r.sent + r.failed + l.length)
      ∧ (l.foldl (send_count_step db exc now) r).total = r.total := by
  intro l
  induction l with
  | nil => intro r; simp
  | cons d l ih =>
      intro r
      rw [List.foldl_cons]
      obtain ⟨h1, h2⟩ := ih (send_count_step db exc now r d)
      have hstep : (send_count_step db exc now r d).sent
            + (send_count_step db exc now r d).failed = r.sent + r.failed + 1
          ∧ (send_count_step db exc now r d).total = r.total := by
        unfold send_count_step
        by_cases hs : (send_notification db exc now d).1 = true
        · simp [hs]; omega
        · simp [hs]; omega
      refine ⟨?_, h2.trans hstep.2⟩
      rw [h1, hstep.1, List.length_cons]
      omega

/-- C7: every Pending record is attempted independently (the resulting table
is a pointwise map, so one record's failure cannot abort the others),
each processed record ends Delivered on channel success or Failed on any
failure — exceptions included — and the returned counters satisfy
sent + failed = total with total the number of Pending records selected at
the start of the pass. -/
theorem send_pending_isolates_and_counts :
    ∀ (db : DB) (exc : ExcOracle) (now : Nat),
      ((send_pending_notifications db exc now).1.sent
          + (send_pending_notifications db exc now).1.failed
          = (send_pending_notifications db exc now).1.total)
      ∧ ((send_pending_notifications db exc now).1.total
          = (db.deliveries.filter fun d => decide (d.status = .pending)).length)
      ∧ ((send_pending_notifications db exc now).2.deliveries
          = db.deliveries.map fun d =>
              if (decide (d.status = .pending)) then
                (send_notification db exc now d).2
              else d)
      ∧ (∀ d, ((send_notification db exc now d).1 = true →
              (send_notification db exc now d).2.status = .delivered)
          ∧ ((send_notification db exc now d).1 = false →
              (send_notification db exc now d).2.status = .failed)) := by
  intro db exc now
  obtain ⟨h1, h2⟩ := send_count_step_foldl db exc now
    (db.deliveries.filter fun d => decide (d.status = .pending))
    { sent := 0, failed := 0,
      total := (db.deliveries.filter fun d => decide (d.status = .pending)).length }
  refine ⟨?_, ?_, rfl, fun d => send_notification_status db exc now d⟩
  · simp only [send_pending_notifications]
    rw [h1, h2]
    simp
  · simp only [send_pending_notifications]
    rw [h2]

/-- C7 witness: a concrete Pending in-app record for existing alert 1 and
user 1 is sent successfully and ends Delivered. -/
theorem send_pending_isolates_and_counts_witness :
    (send_notification db_delivered no_exc 5
        (delivery_fix 9 .pending .in_app 0 none)).2.status
      = DeliveryStatus.delivered :=
  ((send_pending_isolates_and_counts db_delivered no_exc 5).2.2.2
      (delivery_fix 9 .pending .in_app 0 none)).1 (by decide)

/-- The retry fold maps each delivery through bump-and-resend when eligible
and passes it through untouched otherwise. -/
lemma retry_step_foldl (db : DB) (exc : ExcOracle) (now m : Nat) :
    ∀ (l : List NotificationDelivery)
      (p : RetryResults × List NotificationDelivery),
      (l.foldl (retry_step db exc now m) p).2
        = p.2 ++ l.map (fun d =>
            if retry_eligible now m d then
              (send_notification db exc now (retry_bump now d)).2
            else d) := by
  intro l
  induction l with
  | nil => intro p; simp
  | cons d l ih =>
      intro p
      rw [List.foldl_cons, ih, List.map_cons]
      by_cases he : retry_eligible now m d = true <;>
        simp [retry_step, he, List.append_assoc]

/-- C6: `retry_failed_notifications` rewrites the delivery table pointwise:
exactly the records that are Failed with `retry_count < maxRetries` and a
due-or-unset `next_retry_at` are selected; each selected record gets
`retry_count + 1` and `next_retry_at = now + 5·(new retry_count) minutes`
and is re-sent; every other record — in particular any record with
`retry_count ≥ maxRetries`, which stays permanently Failed — is untouched. -/
theorem retry_failed_notifications_spec :
    ∀ (db : DB) (exc : ExcOracle) (now m : Nat),
      ((retry_failed_notifications db exc now m).2.deliveries
          = db.deliveries.map fun d =>
              if retry_eligible now m d then
                (send_notification db exc now (retry_bump now d)).2
              else d)
      ∧ (∀ d, retry_eligible now m d = true
            ↔ d.status = DeliveryStatus.failed ∧ d.retry_count < m
                ∧ ∀ t, d.next_retry_at = some t → t ≤ now)
      ∧ (∀ d, (retry_bump now d).retry_count = d.retry_count + 1
            ∧ (retry_bump now d).next_retry_at
                = some (now + 300 * (d.retry_count + 1)))
      ∧ (∀ d, m ≤ d.retry_count → retry_eligible now m d = false) := by
  intro db exc now m
  refine ⟨?_, ?_, fun d => ⟨rfl, rfl⟩, ?_⟩
  · simp only [retry_failed_notifications]
    rw [retry_step_foldl db exc now m db.deliveries
      ({ retried := 0, succeeded := 0, still_failed := 0 }, [])]
    simp
  · intro d
    unfold retry_eligible
    cases hn : d.next_retry_at <;> simp [hn, and_assoc]
  · intro d hm
    unfold retry_eligible
    simp [Nat.not_lt.mpr hm]

/-- C6 witness: a Failed record whose three retries are exhausted
(`retry_count = 3 = maxRetries`) is not selected. -/
theorem retry_failed_notifications_spec_witness :
    retry_eligible 1000 3 (delivery_fix 1 .failed .in_app 3 none) = false :=
  (retry_failed_notifications_spec db_empty no_exc 1000 3).2.2.2
    (delivery_fix 1 .failed .in_app 3 none) (by decide)

/-- C8: `mark_notification_as_read` succeeds exactly when some delivery row
matches both the id and the calling user; with no such row it returns false
and the session is unchanged (silent failure, nothing mutated); on success
the table is rewritten pointwise by `mark_read_rule`, which turns a matching
Delivered record into Read with `read_at` stamped. -/
theorem mark_notification_read_spec :
    ∀ (db : DB) (now notification_id user_id : Nat),
      ((mark_notification_as_read db now notification_id user_id).1 = true
          ↔ ∃ d ∈ db.deliveries, d.id = notification_id ∧ d.user_id = user_id)
      ∧ ((∀ d ∈ db.deliveries, ¬(d.id = notification_id ∧ d.user_id = user_id)) →
          mark_notification_as_read db now notification_id user_id = (false, db))
      ∧ ((mark_notification_as_read db now notification_id user_id).1 = true →
          (mark_notification_as_read db now notification_id user_id).2.deliveries
            = db.deliveries.map (mark_read_rule now notification_id user_id))
      ∧ (∀ d, d.id = notification_id → d.user_id = user_id →
          d.status = DeliveryStatus.delivered →
          mark_read_rule now notification_id user_id d
            = { d with status := DeliveryStatus.read, read_at := some now }) := by
  intro db now nid uid
  refine ⟨?_, ?_, ?_, ?_⟩
  · unfold mark_notification_as_read
    cases hf : db.deliveries.find? (fun d => d.id == nid && d.user_id == uid) with
    | some d =>
        have hmem := List.mem_of_find?_eq_some hf
        have hmatch := List.find?_some hf
        simp only [Bool.and_eq_true, beq_iff_eq] at hmatch
        simp only [true_iff]
        exact ⟨d, hmem, hmatch⟩
    | none =>
        simp only [Bool.false_eq_true, false_iff]
        rintro ⟨d, hd, h1, h2⟩
        have hnone := List.find?_eq_none.mp hf d hd
        simp [h1, h2] at hnone
  · intro hall
    unfold mark_notification_as_read
    have hnone : db.deliveries.find?
        (fun d => d.id == nid && d.user_id == uid) = none := by
      apply List.find?_eq_none.mpr
      intro d hd
      have := hall d hd
      simp only [Bool.and_eq_true, beq_iff_eq, not_and] at this ⊢
      tauto
    rw [hnone]
  · intro h
    unfold mark_notification_as_read at *
    cases hf : db.deliveries.find? (fun d => d.id == nid && d.user_id == uid) with
    | some d => rfl
    | none => rw [hf] at h; simp at h
  · intro d h1 h2 h3
    unfold mark_read_rule
    simp [h1, h2, h3]

/-- C8 witness: marking the Delivered record of `db_delivered` as user 1
succeeds. -/
theorem mark_notification_read_spec_witness :
    (mark_notification_as_read db_delivered 9 1 1).1 = true :=
  ((mark_notification_read_spec db_delivered 9 1 1).1).mpr
    ⟨delivery_fix 1 .delivered .in_app 0 none, by decide, by decide⟩

/-- `_validate_alert_targeting` succeeds exactly on spec-valid targeting. -/
lemma validate_alert_targeting_ok_iff (db : DB) (vt : VisibilityType)
    (tt tu : Option (List Nat)) :
    (validate_alert_targeting db vt tt tu = .ok ())
      ↔ targeting_valid db vt tt tu = true := by
  cases vt with
  | organization => simp [validate_alert_targeting, targeting_valid]
  | team =>
      cases tt with
      | none => simp [validate_alert_targeting, targeting_valid]
      | some l =>
          cases l with
          | nil => simp [validate_alert_targeting, targeting_valid]
          | cons x xs =>
              cases hf : (x :: xs).find?
                  (fun t => !db.teams.any (fun tm => tm.id == t)) with
              | some t =>
                  have hmem := List.mem_of_find?_eq_some hf
                  have hpred := List.find?_some hf
                  simp only [Bool.not_eq_true'] at hpred
                  simp only [validate_alert_targeting, hf, targeting_valid]
                  simp only [reduceCtorEq, false_iff, Bool.and_eq_true,
                    List.all_eq_true, not_and]
                  intro hne hall
                  have := hall t hmem
                  rw [hpred] at this
                  cases this
              | none =>
                  have hall := List.find?_eq_none.mp hf
                  simp only [validate_alert_targeting, hf, targeting_valid]
                  simp only [List.isEmpty_cons, Bool.not_false, Bool.true_and,
                    true_iff, List.all_eq_true]
                  intro t ht
                  simpa using hall t ht
  | user =>
      cases tu with
      | none => simp [validate_alert_targeting, targeting_valid]
      | some l =>
          cases l with
          | nil => simp [validate_alert_targeting, targeting_valid]
          | cons x xs =>
              cases hf : (x :: xs).find?
                  (fun v => !db.users.any (fun u => u.id == v)) with
              | some v =>
                  have hmem := List.mem_of_find?_eq_some hf
                  have hpred := List.find?_some hf
                  simp only [Bool.not_eq_true'] at hpred
                  simp only [validate_alert_targeting, hf, targeting_valid]
                  simp only [reduceCtorEq, false_iff, Bool.and_eq_true,
                    List.all_eq_true, not_and]
                  intro hne hall
                  have := hall v hmem
                  rw [hpred] at this
                  cases this
              | none =>
                  have hall := List.find?_eq_none.mp hf
                  simp only [validate_alert_targeting, hf, targeting_valid]
                  simp only [List.isEmpty_cons, Bool.not_false, Bool.true_and,
                    true_iff, List.all_eq_true]
                  intro v hv
                  simpa using hall v hv

/-- C9, amended: creation always validates targeting before any write, so a
ValidationError leaves the session untouched; update validates targeting only
when the payload includes `visibility_type`, in which case a failed
validation also leaves the session untouched (or the unknown-id soft result
occurs); and validation succeeds exactly on spec-valid targeting (non-empty
required list, all referenced ids existing). -/
theorem create_update_validation :
    (∀ (db : DB) (a : AlertCreate) (created_by now new_id : Nat) (e : String),
        validate_alert_targeting db a.visibility_type a.target_team_ids
            a.target_user_ids = .error e →
        create_alert db a created_by now new_id = (.error e, db))
    ∧ (∀ (db : DB) (alert_id : Nat) (u : AlertUpdate) (vt : VisibilityType)
          (e : String),
        u.visibility_type = some vt →
        validate_alert_targeting db vt u.target_team_ids u.target_user_ids
            = .error e →
        update_alert db alert_id u = (.error e, db)
          ∨ update_alert db alert_id u = (.ok none, db))
    ∧ (∀ (db : DB) (vt : VisibilityType) (tt tu : Option (List Nat)),
        (validate_alert_targeting db vt tt tu = .ok ())
          ↔ targeting_valid db vt tt tu = true) := by
  refine ⟨?_, ?_, fun db vt tt tu => validate_alert_targeting_ok_iff db vt tt tu⟩
  · intro db a created_by now new_id e hval
    unfold create_alert
    rw [hval]
  · intro db alert_id u vt e hvt hval
    unfold update_alert
    cases hf : db.alerts.find? (fun a => a.id == alert_id) with
    | none => exact Or.inr rfl
    | some alert =>
        left
        dsimp only
        rw [hvt]
        dsimp only
        rw [hval]

/-- C9 witness: creating a team alert with no team ids fails fast with the
required-ids message and the empty session is returned unchanged. -/
theorem create_update_validation_witness :
    create_alert db_empty bad_create 1 0 1
      = (.error "Team IDs required for team-specific alerts", db_empty) :=
  create_update_validation.1 db_empty bad_create 1 0 1
    "Team IDs required for team-specific alerts" rfl

/-- C9, counterexample to "update raises whenever targeting is bad": the
payload `upd_bad_team` rewrites the target team list of alert 1 to the
nonexistent team 999 without including `visibility_type`, and `update_alert`
applies it without raising — even though `_validate_alert_targeting` would
reject the same targeting. -/
theorem update_skips_validation_without_visibility :
    except_error_msg (update_alert db_read_pref 1 upd_bad_team).1 = none
    ∧ (update_alert db_read_pref 1 upd_bad_team).2.alerts.map
        (fun a => a.target_team_ids) = [some [999]]
    ∧ db_read_pref.teams.any (fun t => t.id == 999) = false
    ∧ targeting_valid db_read_pref .team (some [999]) none = false
    ∧ except_error_msg (validate_alert_targeting db_read_pref .team
        (some [999]) none) = some "Team with ID 999 does not exist" := by
  refine ⟨by decide, by decide, by decide, by decide, by decide⟩

end AlertingSystem
